import Mathlib

/-!
# Verification of the digital-I/O sketches

Shallow embedding of the three Arduino sketches
(`OutputShiftRegister.ino`, `InputShiftRegister.ino`, `PortExpander.ino`)
of the Article-Adding-Digital-IO-To-Your-Arduino repository, together with
proofs of the behavioural properties stated in the design note.

Bytes (`uint8_t`) are modelled as `Nat` values, reduced `% 256` wherever the
C code truncates.  `HIGH` is `1`, `LOW` is `0`.  Hardware line activity is
modelled as explicit event traces, and the PortExpander sketch as a state
machine over an explicit program state.
-/

set_option maxRecDepth 40000
set_option maxHeartbeats 1000000

namespace DigitalIO

/-! ## Arduino bit macros

`bitRead(value, bit)` is `((value) >> (bit)) & 0x01`;
`bitSet(value, bit)` is `value |= (1UL << bit)`;
`bitClear(value, bit)` is `value &= ~(1UL << bit)`.
The results are stored back into `uint8_t` variables, hence the 8-bit
truncation. -/

/-- Arduino `bitRead` macro: `((value) >> (bit)) & 0x01`. -/
def bitRead (value bit : Nat) : Nat :=
  (value >>> bit) &&& 1

/-- Arduino `bitSet` macro applied to a `uint8_t` lvalue:
`value |= (1UL << bit)`, truncated to 8 bits on store. -/
def bitSet (value bit : Nat) : Nat :=
  (value ||| (1 <<< bit)) % 256

/-- Arduino `bitClear` macro applied to a `uint8_t` lvalue:
`value &= ~(1UL << bit)`.  For an 8-bit store the complement of the mask is
its XOR with `0xFF` (bits above bit 7 of `value` are zero). -/
def bitClear (value bit : Nat) : Nat :=
  value &&& (255 ^^^ ((1 <<< bit) % 256))

example : bitSet 0 1 = 2 := by decide
example : bitClear 255 4 = 0b11101111 := by decide
example : bitRead 0b00010000 4 = 1 := by decide

/-! ## Shift-register line traces

The 74HC595 (output) and 74HC165 (input) sketches drive three dedicated
lines each: a data line, a latch line and a clock line.  A transaction is
modelled as the list of `digitalWrite`/`digitalRead` operations it performs
on those lines, in program order. -/

/-- One operation on a shift-register line.  `latchWrite v`, `clockWrite v`
and `dataWrite v` are `digitalWrite`s of value `v` (`1` = HIGH, `0` = LOW) to
the latch, clock and data pins; `dataReadEv v` is a `digitalRead` of the data
pin that returned `v`. -/
inductive SREvent where
  | latchWrite (v : Nat)
  | clockWrite (v : Nat)
  | dataWrite (v : Nat)
  | dataReadEv (v : Nat)
  deriving DecidableEq, Repr

/-- Arduino `shiftOut(dataPin, clockPin, MSBFIRST, val)`: for `i = 0..7` it
writes bit `7 - i` of `val` to the data pin, then pulses the clock HIGH and
LOW. -/
def shiftOutMSB (val : Nat) : List SREvent :=
  (List.range 8).flatMap fun i =>
    [SREvent.dataWrite (bitRead val (7 - i)), SREvent.clockWrite 1,
     SREvent.clockWrite 0]

/-- `osrWriteRegister(outputs)` from `OutputShiftRegister.ino`: drive the
latch LOW, `shiftOut` the byte MSB first, then drive the latch HIGH. -/
def osrWriteRegister (outputs : Nat) : List SREvent :=
  [SREvent.latchWrite 0] ++ shiftOutMSB outputs ++ [SREvent.latchWrite 1]

/-- The sequence of values written to the data line during a trace, in
order.  This is the bit stream an attached shift path observes. -/
def dataLineWrites : List SREvent → List Nat
  | [] => []
  | SREvent.dataWrite v :: rest => v :: dataLineWrites rest
  | _ :: rest => dataLineWrites rest

/-- Arduino `shiftIn(dataPin, clockPin, MSBFIRST)` reading from a simulated
data-line stream: for `i = 0..7` it pulses the clock HIGH, reads the data
pin (the `i`-th element of the stream, `0` if absent) and ORs it into the
accumulator at position `7 - i`, then drives the clock LOW.  Returns the
trace and the accumulated byte. -/
def shiftInMSB (stream : List Nat) : List SREvent × Nat :=
  (List.range 8).foldl
    (fun acc i =>
      (acc.1 ++ [SREvent.clockWrite 1, SREvent.dataReadEv (stream.getD i 0 % 2),
                 SREvent.clockWrite 0],
       acc.2 ||| ((stream.getD i 0 % 2) <<< (7 - i))))
    ([], 0)

/-- `isrReadRegister()` from `InputShiftRegister.ino`: preset the clock HIGH
(the 74HC165 presents bits before a rising edge), raise the latch to enable
shifting, `shiftIn` the byte MSB first, then restore the latch LOW so the
chip resumes continuous input latching. -/
def isrReadRegister (stream : List Nat) : List SREvent × Nat :=
  let sh := shiftInMSB stream
  ([SREvent.clockWrite 1, SREvent.latchWrite 1] ++ sh.1 ++ [SREvent.latchWrite 0],
   sh.2)

/-- `isrDigitalRead(pin)` from `InputShiftRegister.ino`:
`bitRead(isrReadRegister(), pin)`. -/
def isrDigitalRead (stream : List Nat) (pin : Nat) : Nat :=
  bitRead (isrReadRegister stream).2 pin

/-- `osrDigitalWrite(pin, value)` from `OutputShiftRegister.ino`, with the
`static uint8_t outputs` variable passed explicitly: `bitSet` on HIGH,
`bitClear` on LOW, otherwise leave `outputs` untouched; then write the whole
byte with `osrWriteRegister`.  Returns the new retained byte and the line
trace of the write. -/
def osrDigitalWrite (outputs pin value : Nat) : Nat × List SREvent :=
  let outputs1 :=
    if value = 1 then bitSet outputs pin
    else if value = 0 then bitClear outputs pin
    else outputs
  (outputs1, osrWriteRegister outputs1)

example : (isrReadRegister (dataLineWrites (osrWriteRegister 0b00000010))).2
    = 0b00000010 := by decide
example : (osrDigitalWrite 0 3 1).1 = 8 := by decide

/-! ## PortExpander state machine

`PortExpander.ino` drives an MCP23017 16-bit I/O expander.  PORTA holds the
LEDs (outputs), PORTB the switches (inputs).  The sketch shares one global
`volatile bool switchDidChange` between the interrupt service routine and
the main loop.  The MCP23017 library calls used by the sketch
(`digitalWrite`, `readPort`/`writePort`, `interruptedBy`,
`clearInterrupts`) are modelled on an explicit register state; reading the
interrupt-capture registers is what clears the pending interrupt on the chip. -/

/-- The MCP23017 register state visible to the sketch: the two GPIO ports,
the interrupt-flag registers (INTFA/INTFB), the interrupt-capture registers
(INTCAPA/INTCAPB) and whether an interrupt is pending on the chip. -/
structure MCPState where
  gpioA : Nat
  gpioB : Nat
  intfA : Nat
  intfB : Nat
  intcapA : Nat
  intcapB : Nat
  intPending : Bool
  deriving DecidableEq, Repr

/-- The program state of the sketch: the `switchDidChange` flag plus the
peripheral state. -/
structure ProgState where
  switchDidChange : Bool
  mcp : MCPState
  deriving DecidableEq, Repr

/-- One observable peripheral interaction of the PortExpander main loop. -/
inductive PEEvent where
  | delayMs (n : Nat)
  | readIntf
  | readIntcapAndClear
  | readPortB
  | writePortA (v : Nat)
  | writePin (pin value : Nat)
  | setFlagFalse
  deriving DecidableEq, Repr

/-- MCP23017 library `digitalWrite(pin, state)`: pins 0-7 address PORTA,
pins 8-15 address PORTB; the addressed GPIO bit is set on HIGH and cleared
otherwise. -/
def mcpDigitalWrite (m : MCPState) (pin state : Nat) : MCPState :=
  if pin > 7 then
    { m with gpioB := if state = 1 then bitSet m.gpioB (pin - 8)
                      else bitClear m.gpioB (pin - 8) }
  else
    { m with gpioA := if state = 1 then bitSet m.gpioA pin
                      else bitClear m.gpioA pin }

/-- MCP23017 library `clearInterrupts`: reading the INTCAP registers clears
the interrupt condition — the INTF registers reset and the chip pending
state is released. -/
def mcpClearInterrupts (m : MCPState) : MCPState :=
  { m with intfA := 0, intfB := 0, intPending := false }

/-- The ISR `mcp23017ChangeDetectedOnPortB()`: its whole body is
`switchDidChange = true`. -/
def mcp23017ChangeDetectedOnPortB (s : ProgState) : ProgState :=
  { s with switchDidChange := true }

/-- The pin-search loop of `readAndWritePinOnInputChange`:
`for (pin = 0; pin < 8; pin++) { if (bitRead(flagB, pin)) break; }`,
written with the remaining iteration count (`8 - pin`) as fuel. -/
def findChangedPinFrom (flagB : Nat) : Nat → Nat → Nat
  | pin, 0 => pin
  | pin, fuel + 1 =>
      if bitRead flagB pin ≠ 0 then pin else findChangedPinFrom flagB (pin + 1) fuel

/-- The pin index the sketch resolves from an INTFB snapshot: the loop above
started at `pin = 0`.  If no bit is set the loop runs to completion and
leaves `pin = 8`. -/
def resolvePin (flagB : Nat) : Nat :=
  findChangedPinFrom flagB 0 8

/-- The value the sketch resolves for the changed pin:
`bitRead(capB, pin)` at the resolved pin index. -/
def resolveValue (flagB capB : Nat) : Nat :=
  bitRead capB (resolvePin flagB)

/-- `readAndWritePinOnInputChange()`: when `switchDidChange` is set, wait
100 ms, read INTFA/INTFB (`interruptedBy`), read INTCAPA/INTCAPB and clear
the interrupt (`clearInterrupts(capA, capB)`), locate the lowest flagged
pin, write its captured value to the LED with the same index, and finally
reset `switchDidChange`.  Returns the new state and the event trace. -/
def readAndWritePinOnInputChange (s : ProgState) : ProgState × List PEEvent :=
  if s.switchDidChange then
    let flagB := s.mcp.intfB
    let capB := s.mcp.intcapB
    let pin := resolvePin flagB
    let value := bitRead capB pin
    let m2 := mcpDigitalWrite (mcpClearInterrupts s.mcp) pin value
    ({ switchDidChange := false, mcp := m2 },
     [PEEvent.delayMs 100, PEEvent.readIntf, PEEvent.readIntcapAndClear,
      PEEvent.writePin pin value, PEEvent.setFlagFalse])
  else (s, [])

/-- `portCopy()`: `writePort(A, readPort(B))` — copy the switches to the
LEDs. -/
def portCopy (s : ProgState) : ProgState :=
  { s with mcp := { s.mcp with gpioA := s.mcp.gpioB } }

/-- `readAndWritePortOnInputChange()`: when `switchDidChange` is set, wait
100 ms, copy PORTB to PORTA, clear the interrupt, then reset
`switchDidChange`.  Returns the new state and the event trace. -/
def readAndWritePortOnInputChange (s : ProgState) : ProgState × List PEEvent :=
  if s.switchDidChange then
    let s1 := portCopy s
    ({ switchDidChange := false, mcp := mcpClearInterrupts s1.mcp },
     [PEEvent.delayMs 100, PEEvent.readPortB, PEEvent.writePortA s.mcp.gpioB,
      PEEvent.readIntcapAndClear, PEEvent.setFlagFalse])
  else (s, [])

/-- MCP23017 library `digitalRead(pin)`: pins 0-7 read PORTA, pins 8-15 read
PORTB. -/
def mcpDigitalRead (m : MCPState) (pin : Nat) : Nat :=
  if pin > 7 then bitRead m.gpioB (pin - 8) else bitRead m.gpioA pin

/-- `readAndWriteWithDigitalReadAndDigitalWrite()`: for each index `i` in
`0..7`, `digitalWrite(LEDi, digitalRead(Switchi))`, performed sequentially
on the live peripheral state. -/
def readAndWriteWithDigitalReadAndDigitalWrite (s : ProgState) : ProgState :=
  { s with
    mcp := (List.range 8).foldl
      (fun m i => mcpDigitalWrite m i (mcpDigitalRead m (i + 8))) s.mcp }

/-- One atomic step of the PortExpander program: the ISR, or one iteration
of `loop()` running one of the four example bodies. -/
inductive ProgStep where
  | isr
  | loopReadWritePin
  | loopReadWritePort
  | loopDigitalReadWrite
  | loopPortCopy
  deriving DecidableEq, Repr

/-- The state transformation performed by one program step. -/
def stepEffect : ProgStep → ProgState → ProgState
  | ProgStep.isr, s => mcp23017ChangeDetectedOnPortB s
  | ProgStep.loopReadWritePin, s => (readAndWritePinOnInputChange s).1
  | ProgStep.loopReadWritePort, s => (readAndWritePortOnInputChange s).1
  | ProgStep.loopDigitalReadWrite, s => readAndWriteWithDigitalReadAndDigitalWrite s
  | ProgStep.loopPortCopy, s => portCopy s

/-- Run a sequence of program steps from a starting state. -/
def runSteps (steps : List ProgStep) (s : ProgState) : ProgState :=
  steps.foldl (fun t st => stepEffect st t) s

/-! ## Fine-grained interleaving of the pin handler with the ISR

To analyse an interrupt arriving *during* the handler body, the body of
`readAndWritePinOnInputChange` (entered with `switchDidChange` true) is
split into its five atomic statements, with the local variables `flagB` and
`capB` carried explicitly.  A hardware interrupt may fire between any two
statements; it is modelled by inserting the ISR at that position. -/

/-- Program state extended with the handler local variables `flagB` and
`capB` (uninitialised locals start at 0; the C reads them before use). -/
structure HandlerState where
  prog : ProgState
  flagBLoc : Nat
  capBLoc : Nat
  deriving DecidableEq, Repr

/-- The five atomic statements of the `readAndWritePinOnInputChange` body:
`delay(100)`; `interruptedBy(flagA, flagB)` (read INTF into locals);
`clearInterrupts(capA, capB)` (read INTCAP into locals, clearing the chip
interrupt); the pin search plus `digitalWrite(pin, value)`; and
`switchDidChange = false`. -/
def pinHandlerSteps : List (HandlerState → HandlerState) :=
  [fun h => h,
   fun h => { h with flagBLoc := h.prog.mcp.intfB },
   fun h => { h with capBLoc := h.prog.mcp.intcapB,
                     prog := { h.prog with mcp := mcpClearInterrupts h.prog.mcp } },
   fun h => { h with prog := { h.prog with
                mcp := mcpDigitalWrite h.prog.mcp (resolvePin h.flagBLoc)
                         (bitRead h.capBLoc (resolvePin h.flagBLoc)) } },
   fun h => { h with prog := { h.prog with switchDidChange := false } }]

/-- The ISR firing between two handler statements. -/
def isrStep (h : HandlerState) : HandlerState :=
  { h with prog := mcp23017ChangeDetectedOnPortB h.prog }

/-- Run the handler body with the ISR inserted before statement `k`
(`k = 5` means the interrupt arrives after the body has finished). -/
def runPinHandlerWithIsrAt (k : Nat) (s : ProgState) : ProgState :=
  ((pinHandlerSteps.take k ++ [isrStep] ++ pinHandlerSteps.drop k).foldl
    (fun (h : HandlerState) f => f h) ⟨s, 0, 0⟩).prog

/-- Sanity: without an ISR, the step-by-step body agrees with the monolithic
`readAndWritePinOnInputChange` on a state with the flag set. -/
theorem pinHandlerSteps_consistent (s : ProgState) (h : s.switchDidChange = true) :
    (pinHandlerSteps.foldl (fun (t : HandlerState) f => f t) ⟨s, 0, 0⟩).prog
      = (readAndWritePinOnInputChange s).1 := by
  simp [pinHandlerSteps, readAndWritePinOnInputChange, h, mcpClearInterrupts,
    mcpDigitalWrite, resolvePin, resolveValue]

/-! ## Auxiliary lemmas -/

/-- `bitSet` stores through a `uint8_t`, so its result is a byte. -/
theorem bitSet_lt_256 (value bit : Nat) : bitSet value bit < 256 :=
  Nat.mod_lt _ (by norm_num)

/-- `bitClear` masks with a byte-sized mask, so it never grows its input. -/
theorem bitClear_le (value bit : Nat) : bitClear value bit ≤ value :=
  Nat.and_le_left

/-- Bit 8 of a byte is zero. -/
theorem bitRead_eight (c : Nat) (hc : c < 256) : bitRead c 8 = 0 := by
  have h : c >>> 8 = 0 := by
    rw [Nat.shiftRight_eq_div_pow]
    have h256 : (2 : Nat) ^ 8 = 256 := by norm_num
    rw [h256]
    exact Nat.div_eq_of_lt hc
  simp [bitRead, h]

/-- Writing then reading a bit: for all bytes and in-range indices,
set-then-clear equals clear, and reads after `bitSet`/`bitClear` return the
written value. -/
theorem bit_roundtrip_aux : ∀ b, b < 256 → ∀ i, i < 8 →
    bitClear (bitSet b i) i = bitClear b i ∧
    bitRead (bitSet b i) i = 1 ∧ bitRead (bitClear b i) i = 0 := by decide

/-- `bitSet` sets exactly its bit: the addressed bit reads 1 and every other
in-range bit is unchanged. -/
theorem bitSet_frame_aux : ∀ o, o < 256 → ∀ p, p < 8 →
    bitRead (bitSet o p) p = 1 ∧
    ∀ j, j < 8 → j ≠ p → bitRead (bitSet o p) j = bitRead o j := by decide

/-- `bitClear` clears exactly its bit: the addressed bit reads 0 and every
other in-range bit is unchanged. -/
theorem bitClear_frame_aux : ∀ o, o < 256 → ∀ p, p < 8 →
    bitRead (bitClear o p) p = 0 ∧
    ∀ j, j < 8 → j ≠ p → bitRead (bitClear o p) j = bitRead o j := by decide

/-- Loopback: shifting a byte out through `osrWriteRegister` and feeding the
resulting data-line stream to `isrReadRegister` reproduces the byte. -/
theorem loopback_aux : ∀ b, b < 256 →
    (isrReadRegister (dataLineWrites (osrWriteRegister b))).2 = b := by decide

/-! ## Claim theorems: shift-register sketches -/

/-- C5: for every byte `b` and index `i` in `[0,7]`, writing bit `i` HIGH and
then LOW through the retained byte of `osrDigitalWrite` yields the same byte as
clearing bit `i` of `b`, and reading a just-written bit back (with `bitRead`,
as `isrDigitalRead` does) returns the written value. -/
theorem c5_bit_write_roundtrip (b i : Nat) (hb : b < 256) (hi : i < 8) :
    (osrDigitalWrite (osrDigitalWrite b i 1).1 i 0).1 = bitClear b i ∧
    (osrDigitalWrite b i 1).1 = bitSet b i ∧
    (osrDigitalWrite b i 0).1 = bitClear b i ∧
    bitRead (osrDigitalWrite b i 1).1 i = 1 ∧
    bitRead (osrDigitalWrite b i 0).1 i = 0 ∧
    isrDigitalRead (dataLineWrites (osrDigitalWrite b i 1).2) i = 1 ∧
    isrDigitalRead (dataLineWrites (osrDigitalWrite b i 0).2) i = 0 := by
  obtain ⟨h1, h2, h3⟩ := bit_roundtrip_aux b hb i hi
  have hset : (osrDigitalWrite b i 1).1 = bitSet b i := by simp [osrDigitalWrite]
  have hclr : (osrDigitalWrite b i 0).1 = bitClear b i := by simp [osrDigitalWrite]
  have hlb1 : (isrReadRegister (dataLineWrites (osrWriteRegister (bitSet b i)))).2
      = bitSet b i := loopback_aux _ (bitSet_lt_256 b i)
  have hlb0 : (isrReadRegister (dataLineWrites (osrWriteRegister (bitClear b i)))).2
      = bitClear b i := loopback_aux _ (Nat.lt_of_le_of_lt (bitClear_le b i) hb)
  refine ⟨?_, hset, hclr, ?_, ?_, ?_, ?_⟩
  · rw [hset]; simpa [osrDigitalWrite] using h1
  · rw [hset]; exact h2
  · rw [hclr]; exact h3
  · have : (osrDigitalWrite b i 1).2 = osrWriteRegister (bitSet b i) := by
      simp [osrDigitalWrite]
    rw [isrDigitalRead, this, hlb1]; exact h2
  · have : (osrDigitalWrite b i 0).2 = osrWriteRegister (bitClear b i) := by
      simp [osrDigitalWrite]
    rw [isrDigitalRead, this, hlb0]; exact h3

/-- Witness for C5 at `b = 0b10101010`, `i = 3`. -/
theorem c5_bit_write_roundtrip_witness :
    (osrDigitalWrite (osrDigitalWrite 0b10101010 3 1).1 3 0).1
        = bitClear 0b10101010 3 ∧
    bitRead (osrDigitalWrite 0b10101010 3 1).1 3 = 1 :=
  ⟨(c5_bit_write_roundtrip 0b10101010 3 (by decide) (by decide)).1,
   (c5_bit_write_roundtrip 0b10101010 3 (by decide) (by decide)).2.2.2.1⟩

/-- C6: writing any byte with the MSB-first output transaction and reading
the emitted data-line stream back with the MSB-first input transaction
reproduces the byte bit for bit; in particular `0b00000010` reads back as
pin 1 HIGH and every other pin LOW. -/
theorem c6_write_read_loopback (b : Nat) (hb : b < 256) :
    (isrReadRegister (dataLineWrites (osrWriteRegister b))).2 = b ∧
    (∀ pin, pin < 8 →
      isrDigitalRead (dataLineWrites (osrWriteRegister b)) pin = bitRead b pin) ∧
    isrDigitalRead (dataLineWrites (osrWriteRegister 0b00000010)) 1 = 1 ∧
    (∀ pin, pin < 8 → pin ≠ 1 →
      isrDigitalRead (dataLineWrites (osrWriteRegister 0b00000010)) pin = 0) := by
  have h := loopback_aux b hb
  refine ⟨h, ?_, by decide, by decide⟩
  intro pin _
  rw [isrDigitalRead, h]

/-- Witness for C6 at `b = 0b00000010`. -/
theorem c6_write_read_loopback_witness :
    (isrReadRegister (dataLineWrites (osrWriteRegister 0b00000010))).2
      = 0b00000010 :=
  (c6_write_read_loopback 0b00000010 (by decide)).1

/-- C7: `osrWriteRegister` performs exactly: latch LOW, the 8 data bits
MSB-first each followed by a clock pulse, then latch HIGH as the final
event; the latch is raised exactly once, so the outputs commit atomically. -/
theorem c7_osr_write_sequence (outputs : Nat) :
    osrWriteRegister outputs =
      [SREvent.latchWrite 0,
       SREvent.dataWrite (bitRead outputs 7), SREvent.clockWrite 1, SREvent.clockWrite 0,
       SREvent.dataWrite (bitRead outputs 6), SREvent.clockWrite 1, SREvent.clockWrite 0,
       SREvent.dataWrite (bitRead outputs 5), SREvent.clockWrite 1, SREvent.clockWrite 0,
       SREvent.dataWrite (bitRead outputs 4), SREvent.clockWrite 1, SREvent.clockWrite 0,
       SREvent.dataWrite (bitRead outputs 3), SREvent.clockWrite 1, SREvent.clockWrite 0,
       SREvent.dataWrite (bitRead outputs 2), SREvent.clockWrite 1, SREvent.clockWrite 0,
       SREvent.dataWrite (bitRead outputs 1), SREvent.clockWrite 1, SREvent.clockWrite 0,
       SREvent.dataWrite (bitRead outputs 0), SREvent.clockWrite 1, SREvent.clockWrite 0,
       SREvent.latchWrite 1] ∧
    (osrWriteRegister outputs).head? = some (SREvent.latchWrite 0) ∧
    (osrWriteRegister outputs).getLast? = some (SREvent.latchWrite 1) ∧
    (osrWriteRegister outputs).count (SREvent.latchWrite 1) = 1 ∧
    dataLineWrites (osrWriteRegister outputs) =
      [bitRead outputs 7, bitRead outputs 6, bitRead outputs 5, bitRead outputs 4,
       bitRead outputs 3, bitRead outputs 2, bitRead outputs 1, bitRead outputs 0] := by
  exact ⟨rfl, rfl, rfl, rfl, rfl⟩

/-- C8: `isrReadRegister` first drives the clock HIGH (the falling-edge
preset), only then raises the latch-enable line, shifts the 8 bits in
MSB-first (the `i`-th bit read lands at position `7 - i`), and restores the
latch LOW as the final event. -/
theorem c8_isr_read_sequence (stream : List Nat) :
    (isrReadRegister stream).1 =
      [SREvent.clockWrite 1, SREvent.latchWrite 1,
       SREvent.clockWrite 1, SREvent.dataReadEv (stream.getD 0 0 % 2), SREvent.clockWrite 0,
       SREvent.clockWrite 1, SREvent.dataReadEv (stream.getD 1 0 % 2), SREvent.clockWrite 0,
       SREvent.clockWrite 1, SREvent.dataReadEv (stream.getD 2 0 % 2), SREvent.clockWrite 0,
       SREvent.clockWrite 1, SREvent.dataReadEv (stream.getD 3 0 % 2), SREvent.clockWrite 0,
       SREvent.clockWrite 1, SREvent.dataReadEv (stream.getD 4 0 % 2), SREvent.clockWrite 0,
       SREvent.clockWrite 1, SREvent.dataReadEv (stream.getD 5 0 % 2), SREvent.clockWrite 0,
       SREvent.clockWrite 1, SREvent.dataReadEv (stream.getD 6 0 % 2), SREvent.clockWrite 0,
       SREvent.clockWrite 1, SREvent.dataReadEv (stream.getD 7 0 % 2), SREvent.clockWrite 0,
       SREvent.latchWrite 0] ∧
    (isrReadRegister stream).1.head? = some (SREvent.clockWrite 1) ∧
    (isrReadRegister stream).1.getLast? = some (SREvent.latchWrite 0) ∧
    (isrReadRegister stream).2 =
      0 ||| (stream.getD 0 0 % 2) <<< 7 ||| (stream.getD 1 0 % 2) <<< 6
        ||| (stream.getD 2 0 % 2) <<< 5 ||| (stream.getD 3 0 % 2) <<< 4
        ||| (stream.getD 4 0 % 2) <<< 3 ||| (stream.getD 5 0 % 2) <<< 2
        ||| (stream.getD 6 0 % 2) <<< 1 ||| (stream.getD 7 0 % 2) <<< 0 := by
  exact ⟨rfl, rfl, rfl, rfl⟩

/-- C9: `osrDigitalWrite` with HIGH sets exactly the addressed bit, with LOW
clears exactly the addressed bit, with any other value leaves the retained
byte unchanged; all other bits keep their values, and the (possibly
unchanged) byte is then written to the shift register in full. -/
theorem c9_osrDigitalWrite_frame (outputs pin value : Nat)
    (ho : outputs < 256) (hp : pin < 8) :
    (value = 1 → bitRead (osrDigitalWrite outputs pin value).1 pin = 1) ∧
    (value = 0 → bitRead (osrDigitalWrite outputs pin value).1 pin = 0) ∧
    (value ≠ 1 → value ≠ 0 → (osrDigitalWrite outputs pin value).1 = outputs) ∧
    (∀ j, j < 8 → j ≠ pin →
      bitRead (osrDigitalWrite outputs pin value).1 j = bitRead outputs j) ∧
    (osrDigitalWrite outputs pin value).2 =
      osrWriteRegister (osrDigitalWrite outputs pin value).1 := by
  obtain ⟨hs1, hs2⟩ := bitSet_frame_aux outputs ho pin hp
  obtain ⟨hc1, hc2⟩ := bitClear_frame_aux outputs ho pin hp
  refine ⟨?_, ?_, ?_, ?_, rfl⟩
  · intro h; subst h; simpa [osrDigitalWrite] using hs1
  · intro h; subst h; simpa [osrDigitalWrite] using hc1
  · intro h1 h0; simp [osrDigitalWrite, h1, h0]
  · intro j hj hne
    by_cases h1 : value = 1
    · subst h1; simpa [osrDigitalWrite] using hs2 j hj hne
    · by_cases h0 : value = 0
      · subst h0; simpa [osrDigitalWrite] using hc2 j hj hne
      · simp [osrDigitalWrite, h1, h0]

/-- Witness for C9 at `outputs = 0b01010101`, `pin = 1`, `value = 1`. -/
theorem c9_osrDigitalWrite_frame_witness :
    bitRead (osrDigitalWrite 0b01010101 1 1).1 1 = 1 ∧
    bitRead (osrDigitalWrite 0b01010101 1 1).1 0 = bitRead 0b01010101 0 :=
  ⟨(c9_osrDigitalWrite_frame 0b01010101 1 1 (by decide) (by decide)).1 rfl,
   (c9_osrDigitalWrite_frame 0b01010101 1 1 (by decide) (by decide)).2.2.2.1
      0 (by decide) (by decide)⟩

/-! ## Claim theorems: PortExpander sketch -/

/-- The pin-search loop selects the lowest-indexed set bit of a nonzero
flag byte: the resolved bit reads 1 and every lower bit reads 0. -/
theorem resolvePin_lowest_aux : ∀ f, f < 256 → f ≠ 0 →
    bitRead f (resolvePin f) = 1 ∧
    ∀ j, j < resolvePin f → bitRead f j = 0 := by decide

/-- C1: on a nonzero flag byte the handler resolves the lowest-indexed set
bit as the changed pin and takes the new value of that pin from the same bit of
the capture byte; flag `0b00000101` resolves to pin 0, and flag
`0b00010000` with capture `0b00010000` resolves to (pin 4, HIGH). -/
theorem c1_lowest_set_bit_wins (flagB capB : Nat) (s : ProgState)
    (hf : flagB < 256) (hnz : flagB ≠ 0) (hs : s.switchDidChange = true)
    (hsf : s.mcp.intfB = flagB) (hsc : s.mcp.intcapB = capB) :
    (bitRead flagB (resolvePin flagB) = 1 ∧
     ∀ j, j < resolvePin flagB → bitRead flagB j = 0) ∧
    resolveValue flagB capB = bitRead capB (resolvePin flagB) ∧
    (readAndWritePinOnInputChange s).2 =
      [PEEvent.delayMs 100, PEEvent.readIntf, PEEvent.readIntcapAndClear,
       PEEvent.writePin (resolvePin flagB) (resolveValue flagB capB),
       PEEvent.setFlagFalse] ∧
    resolvePin 0b00000101 = 0 ∧
    resolvePin 0b00010000 = 4 ∧ resolveValue 0b00010000 0b00010000 = 1 := by
  refine ⟨resolvePin_lowest_aux flagB hf hnz, rfl, ?_, by decide, by decide, by decide⟩
  subst hsf; subst hsc
  simp [readAndWritePinOnInputChange, hs, resolveValue]

/-- Witness for C1 at flag `0b00010000`, capture `0b00010000`. -/
theorem c1_lowest_set_bit_wins_witness :
    resolvePin 0b00010000 = 4 ∧ resolveValue 0b00010000 0b00010000 = 1 :=
  ⟨(c1_lowest_set_bit_wins 0b00010000 0b00010000
      ⟨true, ⟨0, 0, 0, 0b00010000, 0, 0b00010000, true⟩⟩
      (by decide) (by decide) rfl rfl rfl).2.2.2.2.1,
   (c1_lowest_set_bit_wins 0b00010000 0b00010000
      ⟨true, ⟨0, 0, 0, 0b00010000, 0, 0b00010000, true⟩⟩
      (by decide) (by decide) rfl rfl rfl).2.2.2.2.2⟩

/-- C2 is false as stated: on flag byte `0b00000000` the handler does not
produce a "no change" outcome — the search loop runs off the end leaving
`pin = 8`, and the handler still issues a `digitalWrite` to pin index 8,
which clears PORTB bit 0 (here from `0b11111111` to `0b11111110`). -/
theorem c2_counterexample :
    (readAndWritePinOnInputChange ⟨true, ⟨0, 255, 0, 0, 0, 0, true⟩⟩).2 =
      [PEEvent.delayMs 100, PEEvent.readIntf, PEEvent.readIntcapAndClear,
       PEEvent.writePin 8 0, PEEvent.setFlagFalse] ∧
    (readAndWritePinOnInputChange ⟨true, ⟨0, 255, 0, 0, 0, 0, true⟩⟩).1.mcp.gpioB
      = 254 ∧
    (readAndWritePinOnInputChange ⟨true, ⟨0, 255, 0, 0, 0, 0, true⟩⟩).2 ≠ [] := by
  decide

/-- C2 amended: on flag byte `0b00000000` the resolver yields pin index 8
(out of the 0-7 pin range) with value LOW — so it never returns
(pin 0, false) and never acts on pin 0 — but there is no defined "no
change" result: the handler silently writes LOW to pin index 8. -/
theorem c2_spurious_wake (s : ProgState) (hs : s.switchDidChange = true)
    (hf : s.mcp.intfB = 0) (hc : s.mcp.intcapB < 256) :
    resolvePin 0 = 8 ∧ resolvePin 0 ≠ 0 ∧
    resolveValue 0 s.mcp.intcapB = 0 ∧
    (readAndWritePinOnInputChange s).2 =
      [PEEvent.delayMs 100, PEEvent.readIntf, PEEvent.readIntcapAndClear,
       PEEvent.writePin 8 0, PEEvent.setFlagFalse] := by
  have hr : resolvePin 0 = 8 := by decide
  have h8 : bitRead s.mcp.intcapB 8 = 0 := bitRead_eight _ hc
  refine ⟨hr, by decide, ?_, ?_⟩
  · rw [resolveValue, hr]; exact h8
  · simp [readAndWritePinOnInputChange, hs, hf, hr, h8]

/-- Witness for the amended C2 at a concrete spurious-wake state. -/
theorem c2_spurious_wake_witness :
    resolvePin 0 = 8 ∧ resolvePin 0 ≠ 0 :=
  ⟨(c2_spurious_wake ⟨true, ⟨0, 255, 0, 0, 0, 0, true⟩⟩ rfl rfl (by decide)).1,
   (c2_spurious_wake ⟨true, ⟨0, 255, 0, 0, 0, 0, true⟩⟩ rfl rfl (by decide)).2.1⟩

/-- A program step that is not one of the two interrupt handlers preserves a
set `switchDidChange` flag: nothing auto-resets it. -/
theorem stepEffect_preserves_flag (st : ProgStep)
    (hst : st = ProgStep.isr ∨ st = ProgStep.loopDigitalReadWrite ∨
           st = ProgStep.loopPortCopy)
    (t : ProgState) (h : t.switchDidChange = true) :
    (stepEffect st t).switchDidChange = true := by
  rcases hst with h1 | h1 | h1 <;> subst h1 <;>
    simp [stepEffect, mcp23017ChangeDetectedOnPortB,
      readAndWriteWithDigitalReadAndDigitalWrite, portCopy, h]

/-- Running any sequence of non-handler steps preserves a set flag. -/
theorem runSteps_preserves_flag (steps : List ProgStep) :
    ∀ s : ProgState,
    (∀ st ∈ steps, st = ProgStep.isr ∨ st = ProgStep.loopDigitalReadWrite ∨
        st = ProgStep.loopPortCopy) →
    s.switchDidChange = true → (runSteps steps s).switchDidChange = true := by
  induction steps with
  | nil => intro s _ h; simpa [runSteps] using h
  | cons st rest ih =>
      intro s hsteps h
      have h1 := stepEffect_preserves_flag st
        (hsteps st (List.mem_cons_self st rest)) s h
      have h2 : ∀ st' ∈ rest, st' = ProgStep.isr ∨
          st' = ProgStep.loopDigitalReadWrite ∨ st' = ProgStep.loopPortCopy :=
        fun st' hm => hsteps st' (List.mem_cons_of_mem st hm)
      simpa [runSteps] using ih (stepEffect st s) h2 h1

/-- C3: `switchDidChange` is set to true only by the ISR, set to false only
by a handler iteration that runs its body, and a set flag survives any
number of program steps in which no handler body runs. -/
theorem c3_flag_single_writer (s : ProgState) (steps : List ProgStep)
    (hsteps : ∀ st ∈ steps, st = ProgStep.isr ∨
        st = ProgStep.loopDigitalReadWrite ∨ st = ProgStep.loopPortCopy)
    (h : s.switchDidChange = true) :
    (∀ t : ProgState, (stepEffect ProgStep.isr t).switchDidChange = true) ∧
    (∀ st, st ≠ ProgStep.isr → ∀ t : ProgState, t.switchDidChange = false →
      (stepEffect st t).switchDidChange = false) ∧
    (runSteps steps s).switchDidChange = true := by
  refine ⟨fun t => rfl, ?_, runSteps_preserves_flag steps s hsteps h⟩
  intro st hne t ht
  cases st with
  | isr => exact absurd rfl hne
  | loopReadWritePin => simp [stepEffect, readAndWritePinOnInputChange, ht]
  | loopReadWritePort => simp [stepEffect, readAndWritePortOnInputChange, ht]
  | loopDigitalReadWrite =>
      simp [stepEffect, readAndWriteWithDigitalReadAndDigitalWrite, ht]
  | loopPortCopy => simp [stepEffect, portCopy, ht]

/-- Witness for C3: a set flag survives an ISR step followed by two
unrelated loop iterations. -/
theorem c3_flag_single_writer_witness :
    (runSteps [ProgStep.isr, ProgStep.loopPortCopy, ProgStep.loopDigitalReadWrite]
      ⟨true, ⟨0, 0, 0, 0, 0, 0, false⟩⟩).switchDidChange = true :=
  (c3_flag_single_writer ⟨true, ⟨0, 0, 0, 0, 0, 0, false⟩⟩
    [ProgStep.isr, ProgStep.loopPortCopy, ProgStep.loopDigitalReadWrite]
    (by decide) rfl).2.2

/-- C4 is false in its final consequence: an interrupt arriving mid-handling
does not always remain pending.  Concretely, when the ISR fires between the
LED write (statement 3) and the flag clear (statement 4), the final handler
final `switchDidChange = false` overwrites it and the event is lost. -/
theorem c4_counterexample :
    (runPinHandlerWithIsrAt 4 ⟨true, ⟨0, 0, 0, 1, 0, 1, true⟩⟩).switchDidChange
      = false := by
  decide

/-- C4 amended: with the flag set, both handlers perform exactly the claimed
sequence — settle delay, snapshot reads, interrupt clear, output write, and
the flag cleared last, after the snapshot is consumed — but an interrupt
arriving mid-handling (before the final flag-clear statement) is overwritten
by that clear and lost; only an interrupt arriving after the flag clear
remains pending for the next loop iteration. -/
theorem c4_handler_ordering (s : ProgState) (h : s.switchDidChange = true)
    (k : Nat) (hk : k < 5) :
    (readAndWritePinOnInputChange s).2 =
      [PEEvent.delayMs 100, PEEvent.readIntf, PEEvent.readIntcapAndClear,
       PEEvent.writePin (resolvePin s.mcp.intfB)
         (resolveValue s.mcp.intfB s.mcp.intcapB),
       PEEvent.setFlagFalse] ∧
    (readAndWritePortOnInputChange s).2 =
      [PEEvent.delayMs 100, PEEvent.readPortB, PEEvent.writePortA s.mcp.gpioB,
       PEEvent.readIntcapAndClear, PEEvent.setFlagFalse] ∧
    (readAndWritePinOnInputChange s).1.switchDidChange = false ∧
    (runPinHandlerWithIsrAt k s).switchDidChange = false ∧
    (runPinHandlerWithIsrAt 5 s).switchDidChange = true := by
  refine ⟨by simp [readAndWritePinOnInputChange, h, resolveValue],
          by simp [readAndWritePortOnInputChange, h],
          by simp [readAndWritePinOnInputChange, h], ?_, rfl⟩
  interval_cases k <;> rfl

/-- Witness for the amended C4: ISR arriving before the delay statement. -/
theorem c4_handler_ordering_witness :
    (runPinHandlerWithIsrAt 0 ⟨true, ⟨0, 0, 0, 1, 0, 1, true⟩⟩).switchDidChange
        = false ∧
    (runPinHandlerWithIsrAt 5 ⟨true, ⟨0, 0, 0, 1, 0, 1, true⟩⟩).switchDidChange
        = true :=
  ⟨(c4_handler_ordering ⟨true, ⟨0, 0, 0, 1, 0, 1, true⟩⟩ rfl 0 (by decide)).2.2.2.1,
   (c4_handler_ordering ⟨true, ⟨0, 0, 0, 1, 0, 1, true⟩⟩ rfl 0 (by decide)).2.2.2.2⟩

/-- C10: with `switchDidChange` false, one iteration of either handler emits
no peripheral events and returns the program state unchanged. -/
theorem c10_idle_is_noop (s : ProgState) (h : s.switchDidChange = false) :
    readAndWritePinOnInputChange s = (s, []) ∧
    readAndWritePortOnInputChange s = (s, []) := by
  constructor <;>
    simp [readAndWritePinOnInputChange, readAndWritePortOnInputChange, h]

/-- Witness for C10 at a concrete idle state. -/
theorem c10_idle_is_noop_witness :
    readAndWritePinOnInputChange ⟨false, ⟨7, 13, 0, 5, 0, 5, false⟩⟩
      = (⟨false, ⟨7, 13, 0, 5, 0, 5, false⟩⟩, []) :=
  (c10_idle_is_noop ⟨false, ⟨7, 13, 0, 5, 0, 5, false⟩⟩ rfl).1

end DigitalIO
